import Mathlib

/-!
Verification of the transcription backend selector and subprocess bridge of
the audio-transa repository.

The development shallowly embeds the two service classes that make up the
core (`TranscriptionService` in `transcriptionService.js` and
`PythonTranscriptionService` in `pythonTranscriptionService.js`).  Numbers
are modelled as rationals, JavaScript `null`/`undefined` as `Option`,
thrown errors as `Except`, and the asynchronous environment (filesystem
write outcome, child-process outcome, remote API outcome, `Math.random()`
samples) as explicit parameters.  The temp-file effect of a call is modelled
by the count of temporary files the call created and did not delete.
-/

namespace AudioTransa

/-- A transcript segment as produced by the python pipeline and by the
remote API: a timestamped span with a `word`, an optional `speaker` label
and an optional per-segment confidence. -/
structure Segment where
  start : ℚ
  «end» : ℚ
  word : String
  speaker : Option String
  confidence : Option ℚ
deriving DecidableEq

/-- The structured (JSON) output of the python transcription script, as read
by `PythonTranscriptionService.transcribeAudio`: a mapping with optional
`markdown`, `segments`, `speakers`, `duration` and `total_words` fields. -/
structure PyOutput where
  markdown : Option String
  segments : Option (List Segment)
  speakers : Option (List String)
  duration : Option ℚ
  total_words : Option Nat
deriving DecidableEq

/-- The recognized transcription options (`language`, `outputFormat`,
`responseFormat`, `temperature`); a `none` field models an absent (JS
`undefined`) option. -/
structure Options where
  language : Option String
  outputFormat : Option String
  responseFormat : Option String
  temperature : Option ℚ
deriving DecidableEq

/-- The result object a strategy resolves with.  The three strategies build
objects with different field sets, so every field that some strategy omits
is an `Option`, with `none` for "field absent". -/
structure TranscriptionResult where
  text : String
  language : String
  confidence : ℚ
  duration : Option ℚ
  segments : Option (List Segment)
  speakers : Option (List String)
  totalWords : Option Nat
  pipeline : Option String
  mock : Option Bool
  raw : Option PyOutput
deriving DecidableEq

/-- JavaScript truthiness of an optional string: `undefined`/`null` and the
empty string are falsy, every other string is truthy. -/
def jsTruthyStr : Option String → Bool
  | none => false
  | some s => !(s = "")

/-- JavaScript `a || b` for an optional string `a` and string default `b`
(the default is taken when `a` is absent or empty). -/
def jsOrStr (a : Option String) (b : String) : String :=
  match a with
  | some s => if s = "" then b else s
  | none => b

/-- JavaScript `x || null` for an optional number: an absent value and the
falsy value `0` both collapse to `null`. -/
def jsOrNullRat : Option ℚ → Option ℚ
  | none => none
  | some x => if x = 0 then none else some x

namespace PythonTranscriptionService

/-- The failure cases of `PythonTranscriptionService.transcribeAudio`, one
constructor per `reject` site of the source. -/
inductive PyFailure where
  | saveFailed (msg : String)
  | spawnFailed (msg : String)
  | scriptFailed (code : Int) (stderr : String)
  | invalidOutput (parseMsg : String)
deriving DecidableEq

/-- The `message` of the `Error` each `reject` site constructs, following
the template literals of the source. -/
def PyFailure.message : PyFailure → String
  | .saveFailed m => "Failed to save audio buffer: " ++ m
  | .spawnFailed m => "Failed to start Python process: " ++ m
  | .scriptFailed c s => "Python script failed with code " ++ toString c ++ ": " ++ s
  | .invalidOutput m => "Invalid output from Python script: " ++ m

/-- Outcome of `spawn` of `python3` with the argument list: either the process could not be
started (the `error` event) or it ran and closed with an exit code and the
buffered stdout and stderr texts. -/
inductive SpawnOutcome where
  | spawnError (msg : String)
  | exited (code : Int) (stdout : String) (stderr : String)

/-- The environment one `transcribeAudio` call runs against: the outcome of
`fs.writeFile` for the temp file, the outcome of the spawned process, and
the platform `JSON.parse` behaviour on strings. -/
structure PyEnv where
  saveResult : Except String Unit
  spawn : SpawnOutcome
  jsonParse : String → Except String PyOutput

/-- Outcome of `parsePythonOutput`: trimmed markdown text when
`outputFormat` equal to `markdown`, otherwise the structured JSON value. -/
inductive ParsedOutput where
  | markdownText (text : String)
  | structured (value : PyOutput)
deriving DecidableEq

/-- `parsePythonOutput(output, outputFormat)` together with the
`console.error` lines it emits on a parse failure. -/
def parsePythonOutput (jsonParse : String → Except String PyOutput)
    (output : String) (outputFormat : String) :
    Except PyFailure ParsedOutput × List String :=
  if outputFormat = "markdown" then
    (.ok (.markdownText output.trim), [])
  else
    match jsonParse output with
    | .ok v => (.ok (.structured v), [])
    | .error e =>
        (.error (.invalidOutput e),
         ["Failed to parse Python output: " ++ e, "Raw output: " ++ output])

/-- The `word` fields of the segments joined with single spaces. -/
def joinWords (segments : List Segment) : String :=
  String.intercalate " " (segments.map Segment.word)

/-- `result.markdown`, else the space-joined segment words, else the empty string, each step through the JS `||` chain:
JavaScript `||` takes the first truthy operand, so an empty `markdown`
string and an empty join both fall through. -/
def assembleText (result : PyOutput) : String :=
  if jsTruthyStr result.markdown then result.markdown.getD ""
  else
    let joined := result.segments.map joinWords
    if jsTruthyStr joined then joined.getD "" else ""

/-- The result object resolved on the structured (non-markdown) branch.
`result.speakers || []`, `result.duration || 0` and `result.total_words || 0`
coincide with `getD` since the falsy numeric value `0` maps to `0` and an
array is always truthy. -/
def structuredResult (result : PyOutput) : TranscriptionResult :=
  { text := assembleText result
    language := "sv"
    confidence := 0.9
    duration := some (result.duration.getD 0)
    segments := some (result.segments.getD [])
    speakers := some (result.speakers.getD [])
    totalWords := some (result.total_words.getD 0)
    pipeline := some "python-local"
    mock := none
    raw := some result }

/-- The result object resolved on the `outputFormat` equal to `markdown` branch
(no `duration`, `totalWords` or `raw` fields are set there). -/
def markdownResult (text : String) : TranscriptionResult :=
  { text := text
    language := "sv"
    confidence := 0.9
    duration := none
    segments := some []
    speakers := some []
    totalWords := none
    pipeline := some "python-local"
    mock := none
    raw := none }

/-- What one strategy call leaves behind: its settled promise, the number of
temp files it created and did not delete, and its console diagnostics. -/
structure StrategyRun where
  result : Except PyFailure TranscriptionResult
  tempFilesLeft : Nat
  logs : List String

/-- `PythonTranscriptionService.transcribeAudio(audioBuffer, options)`.
The temp file is written by `saveAudioBuffer`; both the `close` and the
`error` handler run `cleanupTempFile` before settling the promise, so every
path below leaves zero temp files. -/
def transcribeAudio (env : PyEnv) (options : Options) : StrategyRun :=
  match env.saveResult with
  | .error m =>
      { result := .error (.saveFailed m), tempFilesLeft := 0, logs := [] }
  | .ok _ =>
    match env.spawn with
    | .spawnError m =>
        { result := .error (.spawnFailed m), tempFilesLeft := 0, logs := [] }
    | .exited code stdout stderr =>
        if code ≠ 0 then
          { result := .error (.scriptFailed code stderr), tempFilesLeft := 0,
            logs := ["Python script error: " ++ stderr] }
        else
          match parsePythonOutput env.jsonParse stdout (options.outputFormat.getD "json") with
          | (.ok (.markdownText t), logs) =>
              { result := .ok (markdownResult t), tempFilesLeft := 0, logs := logs }
          | (.ok (.structured v), logs) =>
              { result := .ok (structuredResult v), tempFilesLeft := 0, logs := logs }
          | (.error e, logs) =>
              { result := .error e, tempFilesLeft := 0, logs := logs }

end PythonTranscriptionService

namespace TranscriptionService

open PythonTranscriptionService

/-- The response object of the remote (OpenAI Whisper) API call. -/
structure OpenAIResponse where
  text : String
  language : Option String
  duration : Option ℚ
  segments : Option (List Segment)
deriving DecidableEq

/-- A character matched by the regex `/[.,!?;]/`. -/
def isPunctuationMark (c : Char) : Bool :=
  c = '.' || c = ',' || c = '!' || c = '?' || c = ';'

/-- The number of matches of the regex `/[.,!?;]/g` in `text`. -/
def punctuationCount (text : String) : Nat :=
  text.data.countP isPunctuationMark

/-- `TranscriptionService.calculateConfidence(text)`: `0` for empty text,
otherwise `min(0.5 + min(len/100, 0.3) + min(punct*0.1, 0.2), 1.0)`. -/
def calculateConfidence (text : String) : ℚ :=
  if text.length = 0 then 0
  else
    min (0.5 + min ((text.length : ℚ) / 100) 0.3
             + min ((punctuationCount text : ℚ) * 0.1) 0.2) 1

/-- Outcome of the remote API call: it either throws or returns a response. -/
inductive ApiOutcome where
  | apiError (msg : String)
  | apiOk (response : OpenAIResponse)

/-- What one remote-strategy call leaves behind. -/
structure RemoteRun where
  result : Except String TranscriptionResult
  tempFilesLeft : Nat

/-- `TranscriptionService.transcribeWithOpenAI(audioBuffer, options)`.
The temp file is written with `writeFileSync` before the API call;
`unlinkSync` runs only on the success path — the `catch` block logs and
rethrows without deleting the file, so a failing API call leaves one temp
file behind. -/
def transcribeWithOpenAI (options : Options) (api : ApiOutcome) : RemoteRun :=
  let language := options.language.getD "en"
  match api with
  | .apiError msg =>
      { result := .error msg, tempFilesLeft := 1 }
  | .apiOk response =>
      { result := .ok
          { text := response.text
            language := jsOrStr response.language language
            confidence := calculateConfidence response.text
            duration := jsOrNullRat response.duration
            segments := response.segments
            speakers := none
            totalWords := none
            pipeline := none
            mock := none
            raw := none }
        tempFilesLeft := 0 }

/-- The five canned transcripts of `getMockTranscription`. -/
def mockResponses : List String :=
  ["Hello, this is a test transcription of the audio.",
   "The audio transcription feature is working correctly.",
   "This is sample text that would normally come from speech recognition.",
   "Audio processing and transcription is now active.",
   "Testing the real-time transcription capabilities."]

/-- What one mock-strategy call produces: its settled (or crashed) promise
and the artificial delay in milliseconds. -/
structure MockRun where
  result : Except String TranscriptionResult
  delayMs : ℚ

/-- `TranscriptionService.getMockTranscription(audioBuffer, options)`.
The three `Math.random()` samples (response choice, delay, confidence) are
passed in as rationals in `[0, 1)`.  A `null` audio buffer makes
`audioBuffer.length` throw a `TypeError` inside the `setTimeout` callback,
so the promise never resolves with a result. -/
def getMockTranscription (audioBuffer : Option (List Nat)) (options : Options)
    (randResponse randDelay randConfidence : ℚ) : MockRun :=
  let randomDelay := randDelay * 2000 + 1000
  match audioBuffer with
  | none =>
      { result := .error "TypeError: Cannot read properties of null (reading length)"
        delayMs := randomDelay }
  | some buffer =>
      { result := .ok
          { text := mockResponses.getD (randResponse * (mockResponses.length : ℚ)).floor.toNat ""
            language := jsOrStr options.language "en"
            confidence := randConfidence * 0.3 + 0.7
            duration := some ((buffer.length : ℚ) / 16000)
            segments := none
            speakers := none
            totalWords := none
            pipeline := none
            mock := some true
            raw := none }
        delayMs := randomDelay }

/-- What one selector call leaves behind: its settled promise and the total
number of temp files left by the strategies it invoked. -/
structure SelectorRun where
  result : Except String TranscriptionResult
  tempFilesLeft : Nat

/-- `TranscriptionService.transcribeAudio(audioBuffer, options)`: try the
python strategy when it is the preferred service; on its failure fall back
to the remote strategy when `useOpenAI`, else rethrow the python error; the
mock strategy is reached only when the preferred service is not `python`
and `useOpenAI` is false.  The outer `catch` wraps any error escaping those
branches as `Transcription failed: <message>`; a python success is returned
unwrapped.  An error of the mock strategy is thrown asynchronously inside
`setTimeout`, outside the outer `try`, so it is propagated unwrapped. -/
def transcribeAudio (preferredService : String) (useOpenAI : Bool)
    (env : PyEnv) (api : ApiOutcome)
    (audioBuffer : Option (List Nat)) (options : Options)
    (randResponse randDelay randConfidence : ℚ) : SelectorRun :=
  if preferredService = "python" then
    match PythonTranscriptionService.transcribeAudio env options with
    | { result := .ok r, tempFilesLeft := n, logs := _ } =>
        { result := .ok r, tempFilesLeft := n }
    | { result := .error pythonError, tempFilesLeft := n, logs := _ } =>
        if useOpenAI then
          match transcribeWithOpenAI options api with
          | { result := .ok r, tempFilesLeft := m } =>
              { result := .ok r, tempFilesLeft := n + m }
          | { result := .error e, tempFilesLeft := m } =>
              { result := .error ("Transcription failed: " ++ e), tempFilesLeft := n + m }
        else
          { result := .error ("Transcription failed: " ++ pythonError.message),
            tempFilesLeft := n }
  else if useOpenAI then
    match transcribeWithOpenAI options api with
    | { result := .ok r, tempFilesLeft := m } =>
        { result := .ok r, tempFilesLeft := m }
    | { result := .error e, tempFilesLeft := m } =>
        { result := .error ("Transcription failed: " ++ e), tempFilesLeft := m }
  else
    match getMockTranscription audioBuffer options randResponse randDelay randConfidence with
    | { result := .ok r, delayMs := _ } => { result := .ok r, tempFilesLeft := 0 }
    | { result := .error e, delayMs := _ } => { result := .error e, tempFilesLeft := 0 }

/-- The per-instance state the constructor establishes: `useOpenAI` is the
truthiness of `process.env.OPENAI_API_KEY`, and `preferredService` is the
literal `python`. -/
structure ServiceState where
  useOpenAI : Bool
  preferredService : String
deriving DecidableEq

/-- The `TranscriptionService` constructor. -/
def mkTranscriptionService (openaiApiKey : Option String) : ServiceState :=
  { useOpenAI := jsTruthyStr openaiApiKey
    preferredService := "python" }

/-- A full selector call on a freshly constructed service instance. -/
def serviceTranscribe (openaiApiKey : Option String) (env : PyEnv) (api : ApiOutcome)
    (audioBuffer : Option (List Nat)) (options : Options)
    (randResponse randDelay randConfidence : ℚ) : SelectorRun :=
  let s := mkTranscriptionService openaiApiKey
  transcribeAudio s.preferredService s.useOpenAI env api audioBuffer options
    randResponse randDelay randConfidence

/-- The object `PythonTranscriptionService.getStatus` resolves with. -/
structure PyServiceStatus where
  available : Bool
  pythonScript : String
  tempDir : String
  hfTokenConfigured : Bool
  service : String
deriving DecidableEq

/-- `PythonTranscriptionService.getStatus()`; the two path fields are
modelled by the file and directory names the constructor joins onto
`__dirname`. -/
def pyGetStatus (available : Bool) (hfToken : Option String) : PyServiceStatus :=
  { available := available
    pythonScript := "transcription_pipeline.py"
    tempDir := "temp_audio_transa"
    hfTokenConfigured := jsTruthyStr hfToken
    service := "python-local-transcription" }

/-- The object `TranscriptionService.getServiceStatus` resolves with. -/
structure ServiceStatus where
  preferredService : String
  pythonService : PyServiceStatus
  openaiConfigured : Bool
  overallConfigured : Bool
deriving DecidableEq

/-- `TranscriptionService.getServiceStatus()`. -/
def getServiceStatus (state : ServiceState) (pythonAvailable : Bool)
    (hfToken openaiApiKey : Option String) : ServiceStatus :=
  let pythonStatus := pyGetStatus pythonAvailable hfToken
  let openaiConfigured := state.useOpenAI && jsTruthyStr openaiApiKey
  { preferredService := state.preferredService
    pythonService := pythonStatus
    openaiConfigured := openaiConfigured
    overallConfigured := pythonStatus.available || openaiConfigured }

/-- Every `Bool` field of a code-level status object, for stating what the
accessor does and does not expose. -/
def ServiceStatus.boolFields (s : ServiceStatus) : List Bool :=
  [s.pythonService.available, s.pythonService.hfTokenConfigured,
   s.openaiConfigured, s.overallConfigured]

end TranscriptionService

/-- The status shape the spec prescribes, written from the words of the spec for
comparison with the accessor of the code: `{ subprocessAvailable, remoteConfigured,
mockModeActive }` with mock mode active exactly when neither backend is
configured. -/
structure SpecServiceStatus where
  subprocessAvailable : Bool
  remoteConfigured : Bool
  mockModeActive : Bool
deriving DecidableEq

/-- The spec-side status accessor, following the words of the spec. -/
def specServiceStatus (subprocessAvailable remoteConfigured : Bool) : SpecServiceStatus :=
  { subprocessAvailable := subprocessAvailable
    remoteConfigured := remoteConfigured
    mockModeActive := !subprocessAvailable && !remoteConfigured }

/-- The result-assembly rule as the spec words it: the markdown field if
present, else the space-joined word fields of the segments, else empty. -/
def specAssembleText (result : PyOutput) : String :=
  match result.markdown with
  | some m => m
  | none =>
    match result.segments with
    | some segs => PythonTranscriptionService.joinWords segs
    | none => ""

/-- Substring containment: `needle` occurs contiguously in `haystack`. -/
def containsSubstring (haystack needle : String) : Prop :=
  ∃ pre post, haystack = pre ++ needle ++ post

/-- Options object with every recognized option absent. -/
def optsNone : Options :=
  { language := none, outputFormat := none, responseFormat := none, temperature := none }

/-- Options object requesting language `en`. -/
def optsEn : Options :=
  { language := some "en", outputFormat := none, responseFormat := none, temperature := none }

/-- A `JSON.parse` behaviour that rejects every string. -/
def jsonParseFail : String → Except String PyOutput :=
  fun _ => .error "Unexpected token o in JSON at position 1"

/-- A sample structured output of the python script. -/
def pyOutSample : PyOutput :=
  { markdown := none
    segments := some [⟨0, 3/2, "Hej", some "A", none⟩, ⟨3/2, 2, "hej", some "A", none⟩]
    speakers := some ["A"]
    duration := some 2
    total_words := some 2 }

/-- A `JSON.parse` behaviour that accepts every string as `pyOutSample`. -/
def jsonParseOkSample : String → Except String PyOutput :=
  fun _ => .ok pyOutSample

/-- Environment where the temp file is written but `python3` cannot be
started. -/
def envPySpawnFail : PythonTranscriptionService.PyEnv :=
  { saveResult := .ok ()
    spawn := .spawnError "spawn python3 ENOENT"
    jsonParse := jsonParseFail }

/-- Environment where the python script runs and prints valid JSON. -/
def envPyOk : PythonTranscriptionService.PyEnv :=
  { saveResult := .ok ()
    spawn := .exited 0 "{}" ""
    jsonParse := jsonParseOkSample }

/-- Environment where the python script exits with code 1 and stderr
`boom`. -/
def envPyBoom : PythonTranscriptionService.PyEnv :=
  { saveResult := .ok ()
    spawn := .exited 1 "" "boom"
    jsonParse := jsonParseFail }

/-- Environment where the python script exits cleanly but prints text that
is not valid JSON. -/
def envPyBadJson : PythonTranscriptionService.PyEnv :=
  { saveResult := .ok ()
    spawn := .exited 0 "not json" ""
    jsonParse := jsonParseFail }

/-- A sample remote API response. -/
def respSample : TranscriptionService.OpenAIResponse :=
  { text := "Hi there.", language := some "en", duration := some 2, segments := none }

/-- A structured output whose `markdown` field is present but empty while
its segments carry a word. -/
def pyOutMarkdownEmpty : PyOutput :=
  { markdown := some ""
    segments := some [⟨0, 1, "hello", none, none⟩]
    speakers := none
    duration := none
    total_words := none }

/-- A 200-character text with exactly 3 punctuation marks. -/
def sampleText200 : String := String.mk (List.replicate 197 'a' ++ ['.', '!', '?'])

/-! Helper lemmas shared by the claim theorems. -/

/-- A string contains its own suffix as a substring. -/
theorem containsSubstring_of_append_left (pre needle : String) :
    containsSubstring (pre ++ needle) needle :=
  ⟨pre, "", by rw [String.append_empty]⟩

/-- Defaulting an absent output format to `json` never yields `markdown`
unless the option was `markdown` itself. -/
theorem getD_json_ne_markdown (o : Option String) (h : o ≠ some "markdown") :
    o.getD "json" ≠ "markdown" := by
  cases o with
  | none => simp
  | some s =>
    simp only [Option.getD_some]
    intro hs
    exact h (by rw [hs])

/-- The python strategy deletes its temp file on every exit path. -/
theorem pythonTranscribe_tempFilesLeft (env : PythonTranscriptionService.PyEnv)
    (opts : Options) :
    (PythonTranscriptionService.transcribeAudio env opts).tempFilesLeft = 0 := by
  rcases env with ⟨save, spawn, jp⟩
  cases save with
  | error m => rfl
  | ok u =>
    cases spawn with
    | spawnError m => rfl
    | exited code stdout stderr =>
      simp only [PythonTranscriptionService.transcribeAudio]
      split
      · rfl
      · split <;> rfl

/-- Every success of the python strategy is tagged `python-local`, carries
language `sv` and confidence `0.9`. -/
theorem pythonTranscribe_ok_fields (env : PythonTranscriptionService.PyEnv)
    (opts : Options) (r : TranscriptionResult)
    (h : (PythonTranscriptionService.transcribeAudio env opts).result = .ok r) :
    r.pipeline = some "python-local" ∧ r.language = "sv" ∧ r.confidence = 0.9 := by
  rcases env with ⟨save, spawn, jp⟩
  cases save with
  | error m => exact absurd h (by simp [PythonTranscriptionService.transcribeAudio])
  | ok u =>
    cases spawn with
    | spawnError m => exact absurd h (by simp [PythonTranscriptionService.transcribeAudio])
    | exited code stdout stderr =>
      simp only [PythonTranscriptionService.transcribeAudio] at h
      split at h
      · exact absurd h (by simp)
      · split at h
        · obtain rfl := (Except.ok.injEq _ _).mp h
          exact ⟨rfl, rfl, rfl⟩
        · obtain rfl := (Except.ok.injEq _ _).mp h
          exact ⟨rfl, rfl, rfl⟩
        · exact absurd h (by simp)

/-- The python strategy rejects with `scriptFailed` carrying the exit code
and the captured stderr whenever the child exits non-zero. -/
theorem pythonTranscribe_scriptFailed (env : PythonTranscriptionService.PyEnv)
    (opts : Options) (code : Int) (stdout stderr : String)
    (hsave : env.saveResult = .ok ()) (hspawn : env.spawn = .exited code stdout stderr)
    (hcode : code ≠ 0) :
    (PythonTranscriptionService.transcribeAudio env opts).result =
      .error (.scriptFailed code stderr) := by
  rcases env with ⟨save, spawn, jp⟩
  simp only at hsave hspawn
  subst hsave hspawn
  simp [PythonTranscriptionService.transcribeAudio, hcode]

/-- On a fresh service with no API key, a selector call just unwraps the
python strategy: a python success is returned as is, a python failure is
rethrown wrapped as `Transcription failed: …`, and the temp-file count is
that of the python strategy. -/
theorem serviceTranscribe_noKey (env : PythonTranscriptionService.PyEnv)
    (api : TranscriptionService.ApiOutcome) (buf : Option (List Nat)) (opts : Options)
    (r1 r2 r3 : ℚ) :
    TranscriptionService.serviceTranscribe none env api buf opts r1 r2 r3 =
      { result :=
          match (PythonTranscriptionService.transcribeAudio env opts).result with
          | .ok r => .ok r
          | .error e => .error ("Transcription failed: " ++ e.message)
        tempFilesLeft := (PythonTranscriptionService.transcribeAudio env opts).tempFilesLeft } := by
  rcases hrun : PythonTranscriptionService.transcribeAudio env opts with ⟨res, n, logs⟩
  simp only [TranscriptionService.serviceTranscribe, TranscriptionService.mkTranscriptionService,
    TranscriptionService.transcribeAudio, hrun]
  cases res <;> rfl

/-- A python success short-circuits the selector regardless of the API key. -/
theorem serviceTranscribe_pyOk (key : Option String) (env : PythonTranscriptionService.PyEnv)
    (api : TranscriptionService.ApiOutcome) (buf : Option (List Nat)) (opts : Options)
    (r1 r2 r3 : ℚ) (r : TranscriptionResult)
    (h : (PythonTranscriptionService.transcribeAudio env opts).result = .ok r) :
    (TranscriptionService.serviceTranscribe key env api buf opts r1 r2 r3).result = .ok r := by
  rcases hrun : PythonTranscriptionService.transcribeAudio env opts with ⟨res, n, logs⟩
  rw [hrun] at h
  simp only at h
  subst h
  simp only [TranscriptionService.serviceTranscribe, TranscriptionService.mkTranscriptionService,
    TranscriptionService.transcribeAudio, hrun]
  rfl

/-- When the python strategy fails, the API key is truthy and the remote
strategy succeeds, the selector returns the remote result. -/
theorem serviceTranscribe_pyError_apiOk (key : Option String)
    (env : PythonTranscriptionService.PyEnv) (api : TranscriptionService.ApiOutcome)
    (buf : Option (List Nat)) (opts : Options) (r1 r2 r3 : ℚ)
    (e : PythonTranscriptionService.PyFailure) (r' : TranscriptionResult)
    (hpy : (PythonTranscriptionService.transcribeAudio env opts).result = .error e)
    (hkey : jsTruthyStr key = true)
    (hapi : (TranscriptionService.transcribeWithOpenAI opts api).result = .ok r') :
    (TranscriptionService.serviceTranscribe key env api buf opts r1 r2 r3).result = .ok r' := by
  rcases hrun : PythonTranscriptionService.transcribeAudio env opts with ⟨res, n, logs⟩
  rw [hrun] at hpy
  simp only at hpy
  subst hpy
  rcases hapirun : TranscriptionService.transcribeWithOpenAI opts api with ⟨apires, m⟩
  rw [hapirun] at hapi
  simp only at hapi
  subst hapi
  simp only [TranscriptionService.serviceTranscribe, TranscriptionService.mkTranscriptionService,
    TranscriptionService.transcribeAudio, hrun, hkey, hapirun]
  rfl

/-- When the python strategy fails, the API key is truthy and the remote
strategy also fails, the selector surfaces the remote error wrapped as
`Transcription failed: …`. -/
theorem serviceTranscribe_pyError_apiError (key : Option String)
    (env : PythonTranscriptionService.PyEnv) (api : TranscriptionService.ApiOutcome)
    (buf : Option (List Nat)) (opts : Options) (r1 r2 r3 : ℚ)
    (e : PythonTranscriptionService.PyFailure) (e' : String)
    (hpy : (PythonTranscriptionService.transcribeAudio env opts).result = .error e)
    (hkey : jsTruthyStr key = true)
    (hapi : (TranscriptionService.transcribeWithOpenAI opts api).result = .error e') :
    (TranscriptionService.serviceTranscribe key env api buf opts r1 r2 r3).result =
      .error ("Transcription failed: " ++ e') := by
  rcases hrun : PythonTranscriptionService.transcribeAudio env opts with ⟨res, n, logs⟩
  rw [hrun] at hpy
  simp only at hpy
  subst hpy
  rcases hapirun : TranscriptionService.transcribeWithOpenAI opts api with ⟨apires, m⟩
  rw [hapirun] at hapi
  simp only at hapi
  subst hapi
  simp only [TranscriptionService.serviceTranscribe, TranscriptionService.mkTranscriptionService,
    TranscriptionService.transcribeAudio, hrun, hkey, hapirun]
  rfl

/-- When the python strategy fails and the API key is not truthy, the
selector rethrows the python error wrapped as `Transcription failed: …`. -/
theorem serviceTranscribe_keyFalse (key : Option String)
    (env : PythonTranscriptionService.PyEnv) (api : TranscriptionService.ApiOutcome)
    (buf : Option (List Nat)) (opts : Options) (r1 r2 r3 : ℚ)
    (e : PythonTranscriptionService.PyFailure)
    (hpy : (PythonTranscriptionService.transcribeAudio env opts).result = .error e)
    (hkey : jsTruthyStr key = false) :
    (TranscriptionService.serviceTranscribe key env api buf opts r1 r2 r3).result =
      .error ("Transcription failed: " ++ e.message) := by
  rcases hrun : PythonTranscriptionService.transcribeAudio env opts with ⟨res, n, logs⟩
  rw [hrun] at hpy
  simp only at hpy
  subst hpy
  simp only [TranscriptionService.serviceTranscribe, TranscriptionService.mkTranscriptionService,
    TranscriptionService.transcribeAudio, hrun, hkey]
  rfl

/-- Every success of the python strategy carries no mock marker. -/
theorem pythonTranscribe_ok_mock (env : PythonTranscriptionService.PyEnv)
    (opts : Options) (r : TranscriptionResult)
    (h : (PythonTranscriptionService.transcribeAudio env opts).result = .ok r) :
    r.mock = none := by
  rcases env with ⟨save, spawn, jp⟩
  cases save with
  | error m => exact absurd h (by simp [PythonTranscriptionService.transcribeAudio])
  | ok u =>
    cases spawn with
    | spawnError m => exact absurd h (by simp [PythonTranscriptionService.transcribeAudio])
    | exited code stdout stderr =>
      simp only [PythonTranscriptionService.transcribeAudio] at h
      split at h
      · exact absurd h (by simp)
      · split at h
        · obtain rfl := (Except.ok.injEq _ _).mp h
          rfl
        · obtain rfl := (Except.ok.injEq _ _).mp h
          rfl
        · exact absurd h (by simp)

/-- Every success of the remote strategy carries no mock marker. -/
theorem transcribeWithOpenAI_ok_mock (opts : Options)
    (api : TranscriptionService.ApiOutcome) (r : TranscriptionResult)
    (h : (TranscriptionService.transcribeWithOpenAI opts api).result = .ok r) :
    r.mock = none := by
  cases api with
  | apiError msg => exact absurd h (by simp [TranscriptionService.transcribeWithOpenAI])
  | apiOk resp =>
    obtain rfl := (Except.ok.injEq _ _).mp h
    rfl

/-- Every success of a selector call on a fresh service comes from the
python strategy or from the remote strategy: the mock branch is unreachable
because the constructor always sets the preferred service to `python`. -/
theorem serviceTranscribe_ok_cases (key : Option String)
    (env : PythonTranscriptionService.PyEnv) (api : TranscriptionService.ApiOutcome)
    (buf : Option (List Nat)) (opts : Options) (r1 r2 r3 : ℚ) (r : TranscriptionResult)
    (h : (TranscriptionService.serviceTranscribe key env api buf opts r1 r2 r3).result = .ok r) :
    (PythonTranscriptionService.transcribeAudio env opts).result = .ok r
    ∨ (TranscriptionService.transcribeWithOpenAI opts api).result = .ok r := by
  rcases hrun : PythonTranscriptionService.transcribeAudio env opts with ⟨res, n, logs⟩
  cases res with
  | ok r0 =>
    have hsel := serviceTranscribe_pyOk key env api buf opts r1 r2 r3 r0 (by rw [hrun])
    rw [hsel] at h
    obtain rfl := (Except.ok.injEq _ _).mp h
    left
    rfl
  | error e =>
    have hpy : (PythonTranscriptionService.transcribeAudio env opts).result = .error e := by
      rw [hrun]
    rcases hapirun : TranscriptionService.transcribeWithOpenAI opts api with ⟨apires, m⟩
    cases hkey : jsTruthyStr key with
    | false =>
      have hsel := serviceTranscribe_keyFalse key env api buf opts r1 r2 r3 e hpy hkey
      rw [hsel] at h
      exact absurd h (by simp)
    | true =>
      cases apires with
      | ok r0 =>
        have hsel := serviceTranscribe_pyError_apiOk key env api buf opts r1 r2 r3 e r0 hpy
          hkey (by rw [hapirun])
        rw [hsel] at h
        obtain rfl := (Except.ok.injEq _ _).mp h
        right
        rfl
      | error e' =>
        have hsel := serviceTranscribe_pyError_apiError key env api buf opts r1 r2 r3 e e' hpy
          hkey (by rw [hapirun])
        rw [hsel] at h
        exact absurd h (by simp)

/-! The claims. -/

/-- C1 (counterexample): the claim that every transcribe call deletes every
temp file it created on every exit path is false — when the python strategy
fails, an API key is configured and the remote API call then throws, the
selector call returns with the temp file of the remote strategy still on disk
(the `catch` block of `transcribeWithOpenAI` rethrows without unlinking). -/
theorem C1_counterexample :
    (TranscriptionService.serviceTranscribe (some "sk-test") envPySpawnFail
        (.apiError "network timeout") (some []) optsNone 0 0 0).tempFilesLeft = 1
    ∧ (1 : Nat) ≠ 0 :=
  ⟨rfl, by decide⟩

/-- C1 (amended): the python strategy deletes its temp file on every exit
path (success, non-zero exit, parse failure, spawn failure); the remote
strategy deletes its temp file on success but leaves exactly one behind
when the API call throws; with no API key configured a selector call never
leaves a temp file behind. -/
theorem C1_temp_file_cleanup :
    (∀ env opts, (PythonTranscriptionService.transcribeAudio env opts).tempFilesLeft = 0)
    ∧ (∀ opts resp,
        (TranscriptionService.transcribeWithOpenAI opts (.apiOk resp)).tempFilesLeft = 0)
    ∧ (∀ opts msg,
        (TranscriptionService.transcribeWithOpenAI opts (.apiError msg)).tempFilesLeft = 1)
    ∧ (∀ env api buf opts r1 r2 r3,
        (TranscriptionService.serviceTranscribe none env api buf opts r1 r2 r3).tempFilesLeft
          = 0) := by
  refine ⟨pythonTranscribe_tempFilesLeft, fun opts resp => rfl, fun opts msg => rfl,
    fun env api buf opts r1 r2 r3 => ?_⟩
  rw [serviceTranscribe_noKey]
  exact pythonTranscribe_tempFilesLeft env opts

/-- C2 (counterexample): the claim that a selector call in mock mode (no
backend configured at all) returns a synthesized mock result instead of an
error is false — with no API key and the python spawn failing, the call
fails with the wrapped python error; the mock branch is unreachable because
the constructor always sets the preferred service to `python`. -/
theorem C2_counterexample :
    (TranscriptionService.serviceTranscribe none envPySpawnFail (.apiError "unused")
        (some []) optsNone 0 0 0).result
      = .error "Transcription failed: Failed to start Python process: spawn python3 ENOENT" :=
  rfl

/-- C2 (amended): a selector call on a fresh service tries the python
strategy first and returns its success unwrapped; on its failure, with a
truthy API key, it returns the remote success, and when the remote strategy
also fails it fails with the remote error (the innermost error of the
failing path) wrapped as `Transcription failed: …`; with no truthy API key
a python failure is rethrown wrapped as `Transcription failed: …`.  A mock
result is never returned: every selector success comes from the python or
the remote strategy and carries no mock marker. -/
theorem C2_selection_policy (key : Option String)
    (env : PythonTranscriptionService.PyEnv) (api : TranscriptionService.ApiOutcome)
    (buf : Option (List Nat)) (opts : Options) (r1 r2 r3 : ℚ) :
    (∀ r, (PythonTranscriptionService.transcribeAudio env opts).result = .ok r →
      (TranscriptionService.serviceTranscribe key env api buf opts r1 r2 r3).result = .ok r)
    ∧ (∀ e r', (PythonTranscriptionService.transcribeAudio env opts).result = .error e →
        jsTruthyStr key = true →
        (TranscriptionService.transcribeWithOpenAI opts api).result = .ok r' →
        (TranscriptionService.serviceTranscribe key env api buf opts r1 r2 r3).result = .ok r')
    ∧ (∀ e e', (PythonTranscriptionService.transcribeAudio env opts).result = .error e →
        jsTruthyStr key = true →
        (TranscriptionService.transcribeWithOpenAI opts api).result = .error e' →
        (TranscriptionService.serviceTranscribe key env api buf opts r1 r2 r3).result =
          .error ("Transcription failed: " ++ e'))
    ∧ (∀ e, (PythonTranscriptionService.transcribeAudio env opts).result = .error e →
        jsTruthyStr key = false →
        (TranscriptionService.serviceTranscribe key env api buf opts r1 r2 r3).result =
          .error ("Transcription failed: " ++ e.message))
    ∧ (∀ r, (TranscriptionService.serviceTranscribe key env api buf opts r1 r2 r3).result
          = .ok r →
        ((PythonTranscriptionService.transcribeAudio env opts).result = .ok r
          ∨ (TranscriptionService.transcribeWithOpenAI opts api).result = .ok r)
        ∧ r.mock = none) := by
  refine ⟨fun r h => serviceTranscribe_pyOk key env api buf opts r1 r2 r3 r h,
    fun e r' hpy hkey hapi =>
      serviceTranscribe_pyError_apiOk key env api buf opts r1 r2 r3 e r' hpy hkey hapi,
    fun e e' hpy hkey hapi =>
      serviceTranscribe_pyError_apiError key env api buf opts r1 r2 r3 e e' hpy hkey hapi,
    fun e hpy hkey =>
      serviceTranscribe_keyFalse key env api buf opts r1 r2 r3 e hpy hkey,
    fun r h => ?_⟩
  have hcases := serviceTranscribe_ok_cases key env api buf opts r1 r2 r3 r h
  refine ⟨hcases, ?_⟩
  cases hcases with
  | inl hpy => exact pythonTranscribe_ok_mock env opts r hpy
  | inr hapi => exact transcribeWithOpenAI_ok_mock opts api r hapi

/-- C2 (witness): with valid JSON from the python script and no API key,
the selector returns the structured result of the python strategy. -/
theorem C2_selection_policy_witness :
    (TranscriptionService.serviceTranscribe none envPyOk (.apiError "unused")
        (some []) optsNone 0 0 0).result
      = .ok (PythonTranscriptionService.structuredResult pyOutSample) :=
  (C2_selection_policy none envPyOk (.apiError "unused") (some []) optsNone 0 0 0).1
    (PythonTranscriptionService.structuredResult pyOutSample) rfl

/-- C3 (counterexample): the claim that every returned result carries a set
pipeline tag is false — a result served by the remote strategy (python
failed, API key configured, API succeeded) has no pipeline field at all. -/
theorem C3_counterexample :
    ((TranscriptionService.serviceTranscribe (some "sk-test") envPySpawnFail
        (.apiOk respSample) (some []) optsNone 0 0 0).result.map
        TranscriptionResult.pipeline) = .ok none :=
  rfl

/-- C3 (amended): only the python strategy tags its results, with
`pipeline` equal to `python-local`; remote results carry no pipeline field, and
mock results carry no pipeline field either (they are marked only by
`mock: true`). -/
theorem C3_pipeline_tag :
    (∀ env opts r, (PythonTranscriptionService.transcribeAudio env opts).result = .ok r →
      r.pipeline = some "python-local")
    ∧ (∀ opts api r, (TranscriptionService.transcribeWithOpenAI opts api).result = .ok r →
        r.pipeline = none)
    ∧ (∀ buf opts r1 r2 r3 r,
        (TranscriptionService.getMockTranscription buf opts r1 r2 r3).result = .ok r →
        r.pipeline = none ∧ r.mock = some true) := by
  refine ⟨fun env opts r h => (pythonTranscribe_ok_fields env opts r h).1,
    fun opts api r h => ?_, fun buf opts r1 r2 r3 r h => ?_⟩
  · cases api with
    | apiError msg => exact absurd h (by simp [TranscriptionService.transcribeWithOpenAI])
    | apiOk resp =>
      obtain rfl := (Except.ok.injEq _ _).mp h
      rfl
  · cases buf with
    | none => exact absurd h (by simp [TranscriptionService.getMockTranscription])
    | some buffer =>
      obtain rfl := (Except.ok.injEq _ _).mp h
      exact ⟨rfl, rfl⟩

/-- C3 (witness): the structured result of the python strategy is tagged
`python-local`. -/
theorem C3_pipeline_tag_witness :
    (PythonTranscriptionService.structuredResult pyOutSample).pipeline = some "python-local" :=
  C3_pipeline_tag.1 envPyOk optsNone _ rfl

/-- C4 (counterexample): the claim that the status accessor exposes
`{ subprocessAvailable, remoteConfigured, mockModeActive }` is false — in
the configuration where neither backend is available the value of the accessor
is a record whose boolean fields are all `false` (its summary flag is
`overallConfigured = false`), while the spec-side status would report
`mockModeActive = true`. -/
theorem C4_counterexample :
    (TranscriptionService.getServiceStatus (TranscriptionService.mkTranscriptionService none)
        false none none).boolFields = [false, false, false, false]
    ∧ (specServiceStatus false false).mockModeActive = true
    ∧ (TranscriptionService.getServiceStatus (TranscriptionService.mkTranscriptionService none)
        false none none).overallConfigured = false :=
  ⟨rfl, rfl, rfl⟩

/-- C4 (amended): the status accessor returns `{ preferredService,
pythonService, openaiConfigured, overallConfigured }` with
`overallConfigured = pythonAvailable || openaiConfigured`; mock mode is
never reported as an explicit field — it is observable only as the negation
of `overallConfigured`. -/
theorem C4_status_accessor (state : TranscriptionService.ServiceState)
    (pythonAvailable : Bool) (hfToken openaiApiKey : Option String) :
    TranscriptionService.getServiceStatus state pythonAvailable hfToken openaiApiKey =
      { preferredService := state.preferredService
        pythonService := TranscriptionService.pyGetStatus pythonAvailable hfToken
        openaiConfigured := state.useOpenAI && jsTruthyStr openaiApiKey
        overallConfigured := pythonAvailable || (state.useOpenAI && jsTruthyStr openaiApiKey) }
    ∧ (TranscriptionService.getServiceStatus state pythonAvailable hfToken
        openaiApiKey).overallConfigured
      = !(specServiceStatus pythonAvailable
          (state.useOpenAI && jsTruthyStr openaiApiKey)).mockModeActive := by
  constructor
  · rfl
  · simp only [TranscriptionService.getServiceStatus, TranscriptionService.pyGetStatus,
      specServiceStatus]
    cases pythonAvailable <;> cases state.useOpenAI && jsTruthyStr openaiApiKey <;> rfl

/-- C5: the remote-strategy confidence heuristic returns 0 on empty text,
returns exactly 1 on any text of length 200 with 3 punctuation marks, and
always lies in `[0, 1]`; on nonempty text it is
`min(0.5 + min(len/100, 0.3) + min(punct*0.1, 0.2), 1)`. -/
theorem C5_confidence_formula :
    TranscriptionService.calculateConfidence "" = 0
    ∧ (∀ t : String, t.length ≠ 0 →
        TranscriptionService.calculateConfidence t =
          min (0.5 + min ((t.length : ℚ) / 100) 0.3
                   + min ((TranscriptionService.punctuationCount t : ℚ) * 0.1) 0.2) 1)
    ∧ (∀ t : String, t.length = 200 → TranscriptionService.punctuationCount t = 3 →
        TranscriptionService.calculateConfidence t = 1)
    ∧ (∀ t : String, 0 ≤ TranscriptionService.calculateConfidence t
        ∧ TranscriptionService.calculateConfidence t ≤ 1) := by
  have formula : ∀ t : String, t.length ≠ 0 →
      TranscriptionService.calculateConfidence t =
        min (0.5 + min ((t.length : ℚ) / 100) 0.3
                 + min ((TranscriptionService.punctuationCount t : ℚ) * 0.1) 0.2) 1 := by
    intro t ht
    simp [TranscriptionService.calculateConfidence, ht]
  refine ⟨rfl, formula, fun t h1 h2 => ?_, fun t => ?_⟩
  · rw [formula t (by rw [h1]; decide), h1, h2]
    have hlen : min ((200 : ℚ) / 100) 0.3 = 0.3 := min_eq_right (by norm_num)
    have hpunct : min (((3 : Nat) : ℚ) * 0.1) 0.2 = 0.2 := min_eq_right (by norm_num)
    rw [hpunct]
    norm_num [hlen]
  · by_cases ht : t.length = 0
    · simp [TranscriptionService.calculateConfidence, ht]
    · rw [formula t ht]
      have hA : (0 : ℚ) ≤ min ((t.length : ℚ) / 100) 0.3 :=
        le_min (by positivity) (by norm_num)
      have hB : (0 : ℚ) ≤ min ((TranscriptionService.punctuationCount t : ℚ) * 0.1) 0.2 :=
        le_min (by positivity) (by norm_num)
      exact ⟨le_min (by linarith) (by norm_num), min_le_right _ _⟩

set_option maxRecDepth 4000 in
/-- C5 (witness): a concrete 200-character text with 3 punctuation marks
has confidence exactly 1. -/
theorem C5_confidence_formula_witness :
    sampleText200.length = 200
    ∧ TranscriptionService.punctuationCount sampleText200 = 3
    ∧ TranscriptionService.calculateConfidence sampleText200 = 1 :=
  ⟨by decide, by decide, C5_confidence_formula.2.2.1 sampleText200 (by decide) (by decide)⟩

/-- C6: when the python child exits non-zero, the strategy rejects with an
error carrying the exit code and the captured stderr, whose message
contains the stderr verbatim; and with no API key configured the terminal selector error message also contains the stderr verbatim. -/
theorem C6_stderr_surfaced (env : PythonTranscriptionService.PyEnv)
    (api : TranscriptionService.ApiOutcome) (buf : Option (List Nat)) (opts : Options)
    (code : Int) (stdout stderr : String) (r1 r2 r3 : ℚ)
    (hsave : env.saveResult = .ok ()) (hspawn : env.spawn = .exited code stdout stderr)
    (hcode : code ≠ 0) :
    (PythonTranscriptionService.transcribeAudio env opts).result =
      .error (.scriptFailed code stderr)
    ∧ containsSubstring
        (PythonTranscriptionService.PyFailure.scriptFailed code stderr).message stderr
    ∧ (TranscriptionService.serviceTranscribe none env api buf opts r1 r2 r3).result =
        .error ("Transcription failed: "
          ++ (PythonTranscriptionService.PyFailure.scriptFailed code stderr).message)
    ∧ containsSubstring
        ("Transcription failed: "
          ++ (PythonTranscriptionService.PyFailure.scriptFailed code stderr).message)
        stderr := by
  have hpy := pythonTranscribe_scriptFailed env opts code stdout stderr hsave hspawn hcode
  refine ⟨hpy, containsSubstring_of_append_left _ stderr, ?_, ?_⟩
  · rw [serviceTranscribe_noKey, hpy]
  · have h := containsSubstring_of_append_left
      ("Transcription failed: "
        ++ ("Python script failed with code " ++ toString code ++ ": ")) stderr
    rwa [String.append_assoc] at h

/-- C6 (witness): for exit code 1 and stderr `boom` with no fallback, the
surfaced selector error contains `boom`. -/
theorem C6_stderr_surfaced_witness :
    (TranscriptionService.serviceTranscribe none envPyBoom (.apiError "unused")
        (some []) optsNone 0 0 0).result =
      .error ("Transcription failed: "
        ++ (PythonTranscriptionService.PyFailure.scriptFailed 1 "boom").message)
    ∧ containsSubstring
        ("Transcription failed: "
          ++ (PythonTranscriptionService.PyFailure.scriptFailed 1 "boom").message) "boom" :=
  ⟨(C6_stderr_surfaced envPyBoom (.apiError "unused") (some []) optsNone 1 "" "boom" 0 0 0
      rfl rfl (by decide)).2.2.1,
   (C6_stderr_surfaced envPyBoom (.apiError "unused") (some []) optsNone 1 "" "boom" 0 0 0
      rfl rfl (by decide)).2.2.2⟩

/-- C7: on a clean exit whose stdout is not valid JSON and an output format
other than markdown, the python strategy fails with the parse-failure error
kind — distinct from the non-zero-exit kind — whose message carries the
parse failure; the raw output is reported in full on the diagnostic log
(hence in particular its first part); and the call never resolves with a
success result. -/
theorem C7_parse_failure (env : PythonTranscriptionService.PyEnv) (opts : Options)
    (stdout stderr e : String)
    (hsave : env.saveResult = .ok ()) (hspawn : env.spawn = .exited 0 stdout stderr)
    (hfmt : opts.outputFormat ≠ some "markdown")
    (hparse : env.jsonParse stdout = .error e) :
    (PythonTranscriptionService.transcribeAudio env opts).result = .error (.invalidOutput e)
    ∧ (∀ c s, PythonTranscriptionService.PyFailure.invalidOutput e
        ≠ PythonTranscriptionService.PyFailure.scriptFailed c s)
    ∧ containsSubstring (PythonTranscriptionService.PyFailure.invalidOutput e).message e
    ∧ ("Raw output: " ++ stdout) ∈ (PythonTranscriptionService.transcribeAudio env opts).logs
    ∧ (∀ r, (PythonTranscriptionService.transcribeAudio env opts).result ≠ .ok r) := by
  have hne := getD_json_ne_markdown opts.outputFormat hfmt
  rcases env with ⟨save, spawn, jp⟩
  simp only at hsave hspawn hparse
  subst hsave hspawn
  have hrun : PythonTranscriptionService.transcribeAudio
      ⟨.ok (), .exited 0 stdout stderr, jp⟩ opts =
      { result := .error (.invalidOutput e), tempFilesLeft := 0,
        logs := ["Failed to parse Python output: " ++ e, "Raw output: " ++ stdout] } := by
    simp [PythonTranscriptionService.transcribeAudio,
      PythonTranscriptionService.parsePythonOutput, hne, hparse]
  rw [hrun]
  refine ⟨rfl, fun c s h => PythonTranscriptionService.PyFailure.noConfusion h,
    containsSubstring_of_append_left _ e, by simp, fun r h => Except.noConfusion h⟩

/-- C7 (witness): a clean exit printing `not json` with a rejecting JSON
parse yields the parse-failure error and logs the raw output. -/
theorem C7_parse_failure_witness :
    (PythonTranscriptionService.transcribeAudio envPyBadJson optsNone).result =
      .error (.invalidOutput "Unexpected token o in JSON at position 1")
    ∧ ("Raw output: " ++ "not json")
        ∈ (PythonTranscriptionService.transcribeAudio envPyBadJson optsNone).logs :=
  ⟨(C7_parse_failure envPyBadJson optsNone "not json" ""
      "Unexpected token o in JSON at position 1" rfl rfl (by decide) rfl).1,
   (C7_parse_failure envPyBadJson optsNone "not json" ""
      "Unexpected token o in JSON at position 1" rfl rfl (by decide) rfl).2.2.2.1⟩

/-- C8 (counterexample): the claim that the assembled text equals the
markdown field whenever that field is present is false — for a parsed
output whose `markdown` field is present but empty and whose segments
carry the word `hello`, the `||` chain of the code falls through to the
segments, so the text is `hello` while the spec-side assembly yields the
empty markdown field. -/
theorem C8_counterexample :
    (PythonTranscriptionService.structuredResult pyOutMarkdownEmpty).text = "hello"
    ∧ pyOutMarkdownEmpty.markdown = some ""
    ∧ specAssembleText pyOutMarkdownEmpty = ""
    ∧ (PythonTranscriptionService.structuredResult pyOutMarkdownEmpty).text
        ≠ specAssembleText pyOutMarkdownEmpty :=
  ⟨rfl, rfl, rfl, by decide⟩

/-- C8 (amended): the assembled text equals the markdown field when that
field is present and non-empty (truthy), else the space-joined word fields
of the segments in array order (empty when the segments are absent); the
confidence is the fixed value `0.9` regardless of the response content. -/
theorem C8_result_assembly (o : PyOutput) :
    (PythonTranscriptionService.structuredResult o).text =
      (if jsTruthyStr o.markdown then o.markdown.getD ""
       else PythonTranscriptionService.joinWords (o.segments.getD []))
    ∧ (PythonTranscriptionService.structuredResult o).confidence = 0.9 := by
  refine ⟨?_, rfl⟩
  show PythonTranscriptionService.assembleText o = _
  unfold PythonTranscriptionService.assembleText
  by_cases hmd : jsTruthyStr o.markdown
  · simp [hmd]
  · simp only [hmd, Bool.false_eq_true, if_false]
    cases hseg : o.segments with
    | none => rfl
    | some segs =>
      simp only [Option.map_some, Option.getD_some]
      by_cases hj : PythonTranscriptionService.joinWords segs = ""
      · simp [jsTruthyStr, hj]
      · simp [jsTruthyStr, hj]

/-- C9 (counterexample): the claim that the mock strategy never throws for
any input including a null buffer is false — with a null audio buffer the
callback dereferences `audioBuffer.length` and throws a `TypeError`, so the
promise never resolves with a result. -/
theorem C9_counterexample :
    (TranscriptionService.getMockTranscription none optsNone 0 0 0).result
      = .error "TypeError: Cannot read properties of null (reading length)" :=
  rfl

/-- C9 (amended): for every non-null buffer (including zero-length) the
mock strategy resolves with a result whose confidence lies in `[0.7, 1)`,
whose artificial delay lies in `[1000, 3000)` milliseconds and whose
duration equals `bufferLength / 16000`. -/
theorem C9_mock_strategy (buf : List Nat) (opts : Options) (r1 r2 r3 : ℚ)
    (h2 : 0 ≤ r2) (h2' : r2 < 1) (h3 : 0 ≤ r3) (h3' : r3 < 1) :
    ∃ r, (TranscriptionService.getMockTranscription (some buf) opts r1 r2 r3).result = .ok r
      ∧ 0.7 ≤ r.confidence ∧ r.confidence < 1
      ∧ r.duration = some ((buf.length : ℚ) / 16000)
      ∧ 1000 ≤ (TranscriptionService.getMockTranscription (some buf) opts r1 r2 r3).delayMs
      ∧ (TranscriptionService.getMockTranscription (some buf) opts r1 r2 r3).delayMs
          < 3000 := by
  refine ⟨_, rfl, ?_, ?_, rfl, ?_, ?_⟩
  · show (0.7 : ℚ) ≤ r3 * 0.3 + 0.7
    nlinarith
  · show r3 * 0.3 + 0.7 < 1
    nlinarith
  · show (1000 : ℚ) ≤ r2 * 2000 + 1000
    nlinarith
  · show r2 * 2000 + 1000 < 3000
    nlinarith

/-- C9 (witness): a concrete two-byte buffer with mid-range random samples
resolves with confidence in `[0.7, 1)`, delay in `[1000, 3000)` and
duration `2 / 16000`. -/
theorem C9_mock_strategy_witness :
    ∃ r, (TranscriptionService.getMockTranscription (some [0, 0]) optsNone
          (1/2) (1/2) (1/2)).result = .ok r
      ∧ 0.7 ≤ r.confidence ∧ r.confidence < 1
      ∧ r.duration = some ((([0, 0] : List Nat).length : ℚ) / 16000)
      ∧ 1000 ≤ (TranscriptionService.getMockTranscription (some [0, 0]) optsNone
          (1/2) (1/2) (1/2)).delayMs
      ∧ (TranscriptionService.getMockTranscription (some [0, 0]) optsNone
          (1/2) (1/2) (1/2)).delayMs < 3000 :=
  C9_mock_strategy [0, 0] optsNone (1/2) (1/2) (1/2)
    (by norm_num) (by norm_num) (by norm_num) (by norm_num)

/-- C10 (counterexample): the claim that the returned language is the
requested or the detected language is false — the python strategy hardcodes
`sv`, so requesting `en` still yields `sv`. -/
theorem C10_counterexample :
    ((PythonTranscriptionService.transcribeAudio envPyOk optsEn).result.map
        TranscriptionResult.language) = .ok "sv"
    ∧ optsEn.language = some "en"
    ∧ ("sv" : String) ≠ "en" :=
  ⟨rfl, rfl, by decide⟩

/-- C10 (amended): the python strategy always sets language to the fixed
code `sv` regardless of the request; the remote strategy sets it to the
backend-reported language when that is truthy, else to the requested
language (default `en`); the mock strategy sets it to the requested
language when truthy, else `en`. -/
theorem C10_language_field :
    (∀ env opts r, (PythonTranscriptionService.transcribeAudio env opts).result = .ok r →
      r.language = "sv")
    ∧ (∀ opts resp r,
        (TranscriptionService.transcribeWithOpenAI opts (.apiOk resp)).result = .ok r →
        r.language = jsOrStr resp.language (opts.language.getD "en"))
    ∧ (∀ buf opts r1 r2 r3 r,
        (TranscriptionService.getMockTranscription buf opts r1 r2 r3).result = .ok r →
        r.language = jsOrStr opts.language "en") := by
  refine ⟨fun env opts r h => (pythonTranscribe_ok_fields env opts r h).2.1,
    fun opts resp r h => ?_, fun buf opts r1 r2 r3 r h => ?_⟩
  · obtain rfl := (Except.ok.injEq _ _).mp h
    rfl
  · cases buf with
    | none => exact absurd h (by simp [TranscriptionService.getMockTranscription])
    | some buffer =>
      obtain rfl := (Except.ok.injEq _ _).mp h
      rfl

/-- C10 (witness): the structured result of the python strategy carries the
hardcoded language `sv`. -/
theorem C10_language_field_witness :
    (PythonTranscriptionService.structuredResult pyOutSample).language = "sv" :=
  C10_language_field.1 envPyOk optsNone _ rfl

end AudioTransa
